import Mathlib

/-
Verification development for the "RPS Coliseum" game server (src/server.js,
second module of the corpus: the rock/paper/scissors match orchestrator).

The server is a single-threaded, run-to-completion JavaScript program.  We
embed its state and the handlers that the claims refer to as pure Lean
functions: every handler takes the current wall-clock time (the value the
source reads via Date.now()) and the whole server state, and returns the
new state together with the list of outbound socket.io emissions produced
by that call.

Representation choices, kept as close to the source as Lean allows:
  - JavaScript objects keyed by socket/match id ('players', 'matches')
    become association lists 'List (String × α)' in insertion order;
    'obj[k] = v' is 'setKey', 'delete obj[k]' is 'eraseKey' (object keys
    are unique, so removing every binding of the key coincides with the
    source's single-key delete), 'obj[k]' is 'lookupKey'.
  - A match's 'scores' / 'moves' objects are keyed by exactly the two
    player ids of the match, in order, so they are stored positionally as
    scoreA/scoreB and moveA/moveB; a read 'moves[idA]' is the field moveA.
  - 'null' becomes 'none'; JavaScript truthiness of a possibly-null string
    is 'truthy' (null and the empty string are falsy, every other string
    truthy); truthiness of a possibly-null move string is 'Option.isSome'
    (the three valid move strings are all truthy).
  - socket.io connectivity (getSocketById returning a socket or null) is
    the membership of the id in the 'sockets' list; room join/leave calls
    act only on the external messaging substrate and carry no server
    state, so they are not modelled — an emission records the room it is
    sent to instead.
-/

namespace RPS

/-- One of the three valid move strings. An arbitrary inbound move value is
modelled as 'Option Move': 'none' stands for any string that is not one of
the three symbols (and for null). -/
inductive Move where
  | rock
  | paper
  | scissors
deriving DecidableEq, Repr

/-- The reason argument of resolveRound. -/
inductive Reason where
  | moves
  | timeout
  | disconnect
  | forfeit
deriving DecidableEq, Repr

/-- Return value of rpsWinner: 'A', 'B' or 'tie'. -/
inductive RpsResult where
  | A
  | B
  | tie
deriving DecidableEq, Repr

/-- player.role field: 'spectator' or 'player'. -/
inductive Role where
  | spectator
  | player
deriving DecidableEq, Repr

/-- match.status field: 'active' or 'finished'. -/
inductive MatchStatus where
  | active
  | finished
deriving DecidableEq, Repr

/-- JavaScript truthiness of a string-or-null value: null and the empty
string are falsy, every other string is truthy. -/
def truthy : Option String → Bool
  | none => false
  | some s => !s.isEmpty

/-- Read 'obj[key]' on a JavaScript object represented as an association
list in insertion order. -/
def lookupKey {α : Type} : List (String × α) → String → Option α
  | [], _ => none
  | (k, v) :: rest, key => if k = key then some v else lookupKey rest key

/-- Write 'obj[key] = v': replace the binding in place if the key exists,
otherwise append the new binding at the end (JavaScript insertion order). -/
def setKey {α : Type} : List (String × α) → String → α → List (String × α)
  | [], key, v => [(key, v)]
  | (k, w) :: rest, key, v =>
      if k = key then (key, v) :: rest else (k, w) :: setKey rest key v

/-- 'delete obj[key]'. Object keys are unique, so filtering out every
binding of the key is the source's single-key delete. -/
def eraseKey {α : Type} (l : List (String × α)) (key : String) : List (String × α) :=
  l.filter (fun kv => kv.1 != key)

/-- Mutate the object stored at 'key' in place, when it exists ('const p =
obj[key]; if (p) \x7b ... field assignments ... \x7d'). -/
def updateKey {α : Type} (l : List (String × α)) (key : String) (f : α → α) :
    List (String × α) :=
  match lookupKey l key with
  | none => l
  | some v => setKey l key (f v)

/-- One entry of the 'players' table (src/server.js lines 749-761 give the
full field list with its defaults). -/
structure Player where
  id : String
  name : String
  preferredColor : String
  role : Role
  roomId : String
  matchId : Option String
  spectatingMatchId : Option String
  totalWins : Nat
  totalLosses : Nat
  timeLastHeartbeat : Nat
  wantsMatch : Bool
deriving DecidableEq, Repr

/-- One entry of the 'matches' table. 'players: [idA, idB]' is playerA and
playerB; the scores and moves objects are keyed by those two ids and are
stored positionally (scoreA is scores[idA], moveA is moves[idA], ...). -/
structure Match where
  id : String
  playerA : String
  playerB : String
  scoreA : Nat
  scoreB : Nat
  round : Nat
  currentTurn : String
  turnDeadline : Nat
  moveA : Option Move
  moveB : Option Move
  status : MatchStatus
  roomId : String
deriving DecidableEq, Repr

/-- The whole mutable server state: the players table, the matches table,
the waiting queue, the set of currently connected socket ids (what
getSocketById can resolve), and the two global counters. -/
structure ServerState where
  players : List (String × Player)
  -- the source names this table 'matches'; that word is a Lean keyword
  matchTable : List (String × Match)
  waitingQueue : List String
  sockets : List String
  totalMatchesPlayed : Nat
  totalRoundsPlayed : Nat
deriving DecidableEq, Repr

/-- ROUND_TIME_LIMIT = 30000 (src/server.js line 300). -/
def ROUND_TIME_LIMIT : Nat := 30000

/-- WINS_TO_TAKE_MATCH = 3 (src/server.js line 301): the fixed win
condition used for every match. -/
def WINS_TO_TAKE_MATCH : Nat := 3

/-- One outbound socket.io emission. The first String field is always the
room (scope) the event is sent to. -/
inductive Event where
  | lobbyState (spectators : List (String × String × Nat × Nat))
      (activeMatches : List (String × Nat × Nat)) (serverTime : Nat)
  | matchStart (roomId matchId : String) (playerNames : List (String × String))
      (scoreA scoreB round : Nat) (startingPlayer : String) (serverTime : Nat)
  | turnUpdate (roomId matchId holderId : String)
      (expiresAt durationMs round timestamp : Nat)
  | roundResult (roomId matchId : String) (round : Nat) (winnerId : Option String)
      (reason : Reason) (scoreA scoreB : Nat) (movA movB : Option Move)
      (timestamp : Nat)
  | gameEnd (roomId matchId : String) (winnerId : Option String)
      (scoreA scoreB : Nat) (timestamp : Nat)
  | chat (roomId matchId fromId fromName text : String) (timestamp : Nat)
deriving DecidableEq, Repr

/-- rpsWinner (src/server.js lines 357-363), on the raw possibly-null move
values the source passes it. The first equality test is JavaScript '==='
on the raw values, so two nulls compare equal. -/
def rpsWinner (moveA moveB : Option Move) : RpsResult :=
  if moveA = moveB then RpsResult.tie
  else if moveA = some Move.rock ∧ moveB = some Move.scissors then RpsResult.A
  else if moveA = some Move.paper ∧ moveB = some Move.rock then RpsResult.A
  else if moveA = some Move.scissors ∧ moveB = some Move.paper then RpsResult.A
  else RpsResult.B

/-- removeFromWaitingQueue (src/server.js lines 384-386). -/
def removeFromWaitingQueue (q : List String) (id : String) : List String :=
  q.filter (fun pid => pid != id)

/-- broadcastLobbyState's snapshot (src/server.js lines 319-350): the
lobby-located players with their records, and the active matches with
their scores, emitted to the 'lobby' room. -/
def lobbySnapshot (st : ServerState) (now : Nat) : Event :=
  Event.lobbyState
    ((st.players.filter (fun pr => pr.2.roomId = "lobby")).map
      (fun pr => (pr.2.id, pr.2.name, pr.2.totalWins, pr.2.totalLosses)))
    ((st.matchTable.filter (fun pr => pr.2.status = MatchStatus.active)).map
      (fun pr => (pr.2.id, pr.2.scoreA, pr.2.scoreB)))
    now

/-- emitTurnUpdate (src/server.js lines 463-473). -/
def emitTurnUpdate (now : Nat) (m : Match) : Event :=
  Event.turnUpdate m.roomId m.id m.currentTurn m.turnDeadline ROUND_TIME_LIMIT
    m.round now

/-- The winnerId computation of resolveRound (src/server.js lines 487-509):
the if-chain that fills the local 'winnerId' (initially null) from the
reason, the two recorded moves, the optional leaverId, and — in the
disconnect/forfeit fallback — existence of the players in the table. -/
def roundWinner (st : ServerState) (m : Match) (reason : Reason)
    (leaverId : Option String) : Option String :=
  match reason with
  | Reason.moves =>
      match rpsWinner m.moveA m.moveB with
      | RpsResult.A => some m.playerA
      | RpsResult.B => some m.playerB
      | RpsResult.tie => none
  | Reason.timeout =>
      if m.moveA.isSome ∧ m.moveB = none then some m.playerA
      else if m.moveA = none ∧ m.moveB.isSome then some m.playerB
      else none
  | Reason.disconnect | Reason.forfeit =>
      if truthy leaverId ∧ (leaverId = some m.playerA ∨ leaverId = some m.playerB) then
        if leaverId = some m.playerA then some m.playerB else some m.playerA
      else
        if lookupKey st.players m.playerA = none then some m.playerB
        else if lookupKey st.players m.playerB = none then some m.playerA
        else none

/-- The score update of resolveRound (src/server.js lines 512-514):
'if (winnerId) match.scores[winnerId] = (match.scores[winnerId] || 0) + 1'.
roundWinner only ever produces null or one of the two player ids; a
truthy winner id that is neither player would, in the source, create an
extra score key that no later read ever consults, leaving both players'
scores unchanged, as here. -/
def bumpScore (m : Match) (winnerId : Option String) : Match :=
  if truthy winnerId then
    if winnerId = some m.playerA then { m with scoreA := m.scoreA + 1 }
    else if winnerId = some m.playerB then { m with scoreB := m.scoreB + 1 }
    else m
  else m

/-- The win/loss bookkeeping of endMatch (src/server.js lines 571-580):
'if (winnerId && pA && pB)' bump the winner's totalWins and the loser's
totalLosses. -/
def bumpWinLoss (ps : List (String × Player)) (winnerId : Option String)
    (idA idB : String) (pA pB : Option Player) : List (String × Player) :=
  if truthy winnerId ∧ pA.isSome ∧ pB.isSome then
    if winnerId = some idA then
      updateKey (updateKey ps idA (fun p => { p with totalWins := p.totalWins + 1 }))
        idB (fun p => { p with totalLosses := p.totalLosses + 1 })
    else if winnerId = some idB then
      updateKey (updateKey ps idB (fun p => { p with totalWins := p.totalWins + 1 }))
        idA (fun p => { p with totalLosses := p.totalLosses + 1 })
    else ps
  else ps

/-- The per-player loop body of endMatch (src/server.js lines 594-606):
always dequeue the id; if both the socket and the player record still
exist, move the player back to the lobby and clear their match fields. -/
def endMatchPlayerCleanup (sockets : List String) (ps : List (String × Player))
    (q : List String) (pid : String) : List (String × Player) × List String :=
  let q1 := removeFromWaitingQueue q pid
  if sockets.contains pid ∧ (lookupKey ps pid).isSome then
    (updateKey ps pid (fun p =>
        { p with roomId := "lobby", matchId := none, role := Role.spectator,
                 wantsMatch := false }), q1)
  else (ps, q1)

/-- The spectator loop of endMatch (src/server.js lines 609-619): every
player spectating this match is sent back to the lobby and loses the
spectate association (the room leave/join is substrate-side only). -/
def spectatorCleanup (matchId : String) (ps : List (String × Player)) :
    List (String × Player) :=
  ps.map (fun pr =>
    if pr.2.spectatingMatchId = some matchId then
      (pr.1, { pr.2 with spectatingMatchId := none, roomId := "lobby" })
    else pr)

/-- endMatch (src/server.js lines 562-626). A second call on an already
finished match is a no-op; otherwise the win/loss records are updated,
'game_end' is emitted to the match room, both players and all spectators
of the match are relocated to the lobby, the match is deleted from the
table, and a fresh lobby snapshot is broadcast. -/
def endMatch (now : Nat) (st : ServerState) (matchId : String)
    (winnerId : Option String) : ServerState × List Event :=
  match lookupKey st.matchTable matchId with
  | none => (st, [])
  | some m =>
    if m.status = MatchStatus.finished then (st, [])
    else
      let pA := lookupKey st.players m.playerA
      let pB := lookupKey st.players m.playerB
      let players1 := bumpWinLoss st.players winnerId m.playerA m.playerB pA pB
      let endEv := Event.gameEnd m.roomId m.id winnerId m.scoreA m.scoreB now
      let c1 := endMatchPlayerCleanup st.sockets players1 st.waitingQueue m.playerA
      let c2 := endMatchPlayerCleanup st.sockets c1.1 c1.2 m.playerB
      let players2 := spectatorCleanup m.id c2.1
      let st1 : ServerState :=
        { st with players := players2, waitingQueue := c2.2,
                  matchTable := eraseKey st.matchTable matchId,
                  totalMatchesPlayed := st.totalMatchesPlayed + 1 }
      (st1, [endEv, lobbySnapshot st1 now])

/-- The next-round setup of resolveRound's else branch (src/server.js lines
548-552): increment the round, clear both move slots, swap the recorded
first mover, and set a fresh deadline. -/
def nextRound (now : Nat) (m : Match) : Match :=
  { m with round := m.round + 1, moveA := none, moveB := none,
           currentTurn :=
             if m.playerA = m.currentTurn then m.playerB else m.playerA,
           turnDeadline := now + ROUND_TIME_LIMIT }

/-- resolveRound (src/server.js lines 480-555). Guards on the match being
present and active; computes the winner from the reason; bumps the score;
emits 'round_result' to the match room; then either ends the match (score
threshold reached, or a disconnect/forfeit reason) or sets up the next
round and emits a fresh 'turnUpdate'. -/
def resolveRound (now : Nat) (st : ServerState) (matchId : String)
    (reason : Reason) (leaverId : Option String) : ServerState × List Event :=
  match lookupKey st.matchTable matchId with
  | none => (st, [])
  | some m =>
    if m.status ≠ MatchStatus.active then (st, [])
    else
      let winnerId := roundWinner st m reason leaverId
      let m1 := bumpScore m winnerId
      let st1 : ServerState :=
        { st with matchTable := setKey st.matchTable matchId m1,
                  totalRoundsPlayed := st.totalRoundsPlayed + 1 }
      let resultEv := Event.roundResult m1.roomId m1.id m1.round winnerId reason
        m1.scoreA m1.scoreB m1.moveA m1.moveB now
      let maxScore := max m1.scoreA m1.scoreB
      if maxScore ≥ WINS_TO_TAKE_MATCH ∨ reason = Reason.disconnect ∨
          reason = Reason.forfeit then
        let r := endMatch now st1 matchId winnerId
        (r.1, resultEv :: r.2)
      else
        let m2 := nextRound now m1
        ({ st1 with matchTable := setKey st1.matchTable matchId m2 },
         [resultEv, emitTurnUpdate now m2])

/-- The per-match body of the round timeout checker (src/server.js lines
718-737): skip matches that are missing, not active, or whose deadline has
not passed; if at least one move was recorded resolve the round with
reason 'timeout'; otherwise extend the deadline by a full round duration
and re-emit the turn notification. -/
def deadlineSweepMatch (now : Nat) (st : ServerState) (matchId : String) :
    ServerState × List Event :=
  match lookupKey st.matchTable matchId with
  | none => (st, [])
  | some m =>
    if m.status ≠ MatchStatus.active then (st, [])
    else if now < m.turnDeadline then (st, [])
    else if m.moveA.isSome ∨ m.moveB.isSome then
      resolveRound now st matchId Reason.timeout none
    else
      let m1 := { m with turnDeadline := now + ROUND_TIME_LIMIT }
      ({ st with matchTable := setKey st.matchTable matchId m1 },
       [emitTurnUpdate now m1])

/-- The match id string built by createMatch (src/server.js line 394). -/
def mkMatchId (idA idB : String) (now : Nat) : String :=
  idA ++ "_" ++ idB ++ "_" ++ toString now

/-- The per-player field updates of createMatch's forEach (src/server.js
lines 413-435), applied when the player record and its socket both exist:
clear a truthy spectate association, then attach the player to the match
room. -/
def joinMatchRoomUpdate (roomId matchId : String) (p : Player) : Player :=
  let p1 := if truthy p.spectatingMatchId then { p with spectatingMatchId := none }
            else p
  { p1 with roomId := roomId, matchId := some matchId, role := Role.player,
            wantsMatch := false }

/-- The id/name pairs sent in 'match_start' (src/server.js lines 441-445),
with the 'Unknown' fallback for a vanished player. -/
def playerNamePairs (ps : List (String × Player)) (ids : List String) :
    List (String × String) :=
  ids.map (fun pid =>
    match lookupKey ps pid with
    | some p => (p.id, p.name)
    | none => (pid, "Unknown"))

/-- createMatch (src/server.js lines 393-457): build and register the match
record, pull both players out of the lobby into the match room (when their
record and socket still exist), then emit 'match_start', the first
'turnUpdate', and a lobby snapshot. -/
def createMatch (now : Nat) (st : ServerState) (idA idB : String) :
    ServerState × List Event :=
  let matchId := mkMatchId idA idB now
  let roomId := "match:" ++ matchId
  let m : Match :=
    { id := matchId, playerA := idA, playerB := idB, scoreA := 0, scoreB := 0,
      round := 1, currentTurn := idA, turnDeadline := now + ROUND_TIME_LIMIT,
      moveA := none, moveB := none, status := MatchStatus.active, roomId := roomId }
  let upd := fun (ps : List (String × Player)) (pid : String) =>
    if (lookupKey ps pid).isSome ∧ st.sockets.contains pid then
      updateKey ps pid (joinMatchRoomUpdate roomId matchId)
    else ps
  let players1 := upd (upd st.players idA) idB
  let st1 : ServerState :=
    { st with matchTable := setKey st.matchTable matchId m, players := players1 }
  let startEv := Event.matchStart roomId matchId
    (playerNamePairs st1.players [idA, idB]) 0 0 1 idA now
  (st1, [startEv, emitTurnUpdate now m, lobbySnapshot st1 now])

/-- The pair re-validation of tryStartMatches (src/server.js lines 637-650):
both players must still exist, still want a match, and still be located in
the lobby. -/
def pairEligible (pA pB : Option Player) : Bool :=
  match pA, pB with
  | some a, some b =>
      a.wantsMatch && b.wantsMatch && (a.roomId = "lobby") && (b.roomId = "lobby")
  | _, _ => false

/-- The while loop of tryStartMatches (src/server.js lines 632-654) with the
live queue as an explicit argument: shift the two oldest entries, skip the
pair if the re-validation fails, otherwise create the match, and keep
going while at least two entries remain. Nothing reached from createMatch
reads the queue, so carrying the shifted queue in the state before the
call matches the source's in-place shift. -/
def tryStartMatchesGo (now : Nat) : List String → ServerState → ServerState × List Event
  | idA :: idB :: rest, st =>
      if pairEligible (lookupKey st.players idA) (lookupKey st.players idB) then
        let c := createMatch now { st with waitingQueue := rest } idA idB
        let r := tryStartMatchesGo now rest c.1
        (r.1, c.2 ++ r.2)
      else
        tryStartMatchesGo now rest { st with waitingQueue := rest }
  | q, st => ({ st with waitingQueue := q }, [])

/-- tryStartMatches (src/server.js lines 632-654). -/
def tryStartMatches (now : Nat) (st : ServerState) : ServerState × List Event :=
  tryStartMatchesGo now st.waitingQueue st

/-- The move recording of the playerMove handler: 'match.moves[socket.id] =
move' for a sender who is one of the two players. -/
def setMove (m : Match) (pid : String) (mv : Move) : Match :=
  if pid = m.playerA then { m with moveA := some mv }
  else if pid = m.playerB then { m with moveB := some mv }
  else m

/-- The playerMove handler (src/server.js lines 893-915). The inbound move
value is 'Option Move' ('none' for any invalid symbol). Every failed
validation returns the state unchanged with no emission; on acceptance the
move is recorded and, if both players now have a recorded move, the round
is resolved in the same call. -/
def playerMove (now : Nat) (st : ServerState) (senderId matchId : String)
    (move : Option Move) : ServerState × List Event :=
  match lookupKey st.players senderId with
  | none => (st, [])
  | some _ =>
    match lookupKey st.matchTable matchId with
    | none => (st, [])
    | some m =>
      if m.status ≠ MatchStatus.active then (st, [])
      else if ¬(senderId = m.playerA ∨ senderId = m.playerB) then (st, [])
      else
        match move with
        | none => (st, [])
        | some mv =>
          if m.turnDeadline < now then (st, [])
          else
            let m1 := setMove m senderId mv
            let st1 : ServerState :=
              { st with matchTable := setKey st.matchTable matchId m1 }
            if m1.moveA.isSome ∧ m1.moveB.isSome then
              resolveRound now st1 matchId Reason.moves none
            else (st1, [])

/-- JavaScript's String.prototype.trim: strip whitespace from both ends of
the string. -/
def jsTrim (s : String) : String :=
  ⟨((s.data.dropWhile Char.isWhitespace).reverse.dropWhile Char.isWhitespace).reverse⟩

/-- JavaScript's 'text.slice(0, n)': the first n characters. -/
def jsSlice (s : String) (n : Nat) : String :=
  ⟨s.data.take n⟩

/-- The chatMessage handler (src/server.js lines 920-943). The text is
trimmed, required nonempty (a falsy, i.e. empty, trimmed text is
rejected), and truncated to 200 characters; the match must exist and be
active; the message is then emitted to the match's room. The source
deliberately does not require the sender to be one of the two players
("Option A: allow anyone in the match room to chat"). -/
def chatMessage (now : Nat) (st : ServerState) (senderId matchId text : String) :
    ServerState × List Event :=
  match lookupKey st.players senderId with
  | none => (st, [])
  | some p =>
    let t := jsTrim text
    if t.isEmpty then (st, [])
    else
      let t2 := jsSlice t 200
      match lookupKey st.matchTable matchId with
      | none => (st, [])
      | some m =>
        if m.status ≠ MatchStatus.active then (st, [])
        else (st, [Event.chat m.roomId m.id senderId p.name t2 now])

/-- The joinLobby handler (src/server.js lines 771-795). A falsy (empty)
name falls back to 'Anonymous', otherwise it is truncated to 20
characters; a falsy color falls back to '#ff00ff'. The player is rewritten
to a lobby spectator with no current match, no queue desire and a fresh
heartbeat, is removed from the waiting queue, and a lobby snapshot is
broadcast. The spectatingMatchId field is not touched. -/
def joinLobby (now : Nat) (st : ServerState) (senderId name preferredColor : String) :
    ServerState × List Event :=
  match lookupKey st.players senderId with
  | none => (st, [])
  | some p =>
    let name1 := if name.isEmpty then "Anonymous" else name.take 20
    let color1 := if preferredColor.isEmpty then "#ff00ff" else preferredColor
    let p1 : Player :=
      { p with name := name1, preferredColor := color1, role := Role.spectator,
               roomId := "lobby", matchId := none, timeLastHeartbeat := now,
               wantsMatch := false }
    let st1 : ServerState :=
      { st with players := setKey st.players senderId p1,
                waitingQueue := removeFromWaitingQueue st.waitingQueue senderId }
    (st1, [lobbySnapshot st1 now])

/-- Modelled from the spec's words, for comparison with rpsWinner: the
rock/paper/scissors precedence relation "rock beats scissors, scissors
beats paper, paper beats rock". -/
def beats : Move → Move → Bool
  | Move.rock, Move.scissors => true
  | Move.scissors, Move.paper => true
  | Move.paper, Move.rock => true
  | _, _ => false

/-
Concrete fixtures used by witnesses and counterexamples.
-/

/-- A default lobby spectator record, as the connection handler creates it. -/
def simplePlayer (i : String) : Player :=
  { id := i, name := "P" ++ i, preferredColor := "#ffffff", role := Role.spectator,
    roomId := "lobby", matchId := none, spectatingMatchId := none,
    totalWins := 0, totalLosses := 0, timeLastHeartbeat := 0, wantsMatch := false }

/-- The player record of a participant of match m1. -/
def matchPlayer (i : String) : Player :=
  { simplePlayer i with role := Role.player, roomId := "match:m1",
                        matchId := some "m1" }

/-- A fresh active match between "a" and "b". -/
def simpleMatch : Match :=
  { id := "m1", playerA := "a", playerB := "b", scoreA := 0, scoreB := 0,
    round := 1, currentTurn := "a", turnDeadline := 30000, moveA := none,
    moveB := none, status := MatchStatus.active, roomId := "match:m1" }

/-- A server state holding the fresh match m1 with its two players. -/
def stMatch : ServerState :=
  { players := [("a", matchPlayer "a"), ("b", matchPlayer "b")],
    matchTable := [("m1", simpleMatch)], waitingQueue := [],
    sockets := ["a", "b"], totalMatchesPlayed := 0, totalRoundsPlayed := 0 }

/-- m1 with both players having submitted rock. -/
def tieMatch : Match :=
  { simpleMatch with moveA := some Move.rock, moveB := some Move.rock }

/-- stMatch with both moves of m1 recorded as rock. -/
def stTie : ServerState :=
  { stMatch with matchTable := [("m1", tieMatch)] }

/-- stMatch extended with a third registered participant "c" who is not a
player of m1. -/
def stChat : ServerState :=
  { stMatch with
      players := [("a", matchPlayer "a"), ("b", matchPlayer "b"),
                  ("c", simplePlayer "c")],
      sockets := ["a", "b", "c"] }

/-- A participant currently spectating m1. -/
def spectatorPlayer : Player :=
  { simplePlayer "c" with spectatingMatchId := some "m1", roomId := "match:m1" }

/-- stMatch extended with "c" spectating m1. -/
def stSpect : ServerState :=
  { stMatch with
      players := [("a", matchPlayer "a"), ("b", matchPlayer "b"),
                  ("c", spectatorPlayer)],
      sockets := ["a", "b", "c"] }

/-- A lobby participant who has asked to be queued. -/
def queuedPlayer (i : String) : Player :=
  { simplePlayer i with wantsMatch := true }

/-- Two queued lobby participants waiting to be paired, no match yet. -/
def stQueue : ServerState :=
  { players := [("a", queuedPlayer "a"), ("b", queuedPlayer "b")],
    matchTable := [], waitingQueue := ["a", "b"], sockets := ["a", "b"],
    totalMatchesPlayed := 0, totalRoundsPlayed := 0 }

/-- m1 at score 1-0 for "a" with a decisive pair of moves recorded. -/
def leadMatch : Match :=
  { simpleMatch with scoreA := 1, moveA := some Move.rock,
                     moveB := some Move.scissors }

/-- stMatch with m1 at 1-0 and both moves in. -/
def stLead : ServerState :=
  { stMatch with matchTable := [("m1", leadMatch)] }

/-- m1 at score 2-0 for "a" with a decisive pair of moves recorded: the next
resolution is the final winning round. -/
def finalMatch : Match :=
  { simpleMatch with scoreA := 2, moveA := some Move.rock,
                     moveB := some Move.scissors }

/-- stMatch with m1 at 2-0 and both moves in. -/
def stFinal : ServerState :=
  { stMatch with matchTable := [("m1", finalMatch)] }

/-
Basic lemmas about the association-list object operations.
-/

@[simp]
theorem lookupKey_setKey_self {α : Type} (l : List (String × α)) (k : String) (v : α) :
    lookupKey (setKey l k v) k = some v := by
  induction l with
  | nil => simp [setKey, lookupKey]
  | cons kv rest ih =>
      by_cases h : kv.1 = k
      · simp [setKey, h, lookupKey]
      · cases kv with
        | mk k0 v0 =>
          simp only at h
          simp [setKey, h, lookupKey, ih]

theorem lookupKey_setKey_ne {α : Type} (l : List (String × α)) (k k' : String) (v : α)
    (h : k ≠ k') : lookupKey (setKey l k v) k' = lookupKey l k' := by
  induction l with
  | nil => simp [setKey, lookupKey, h]
  | cons kv rest ih =>
      cases kv with
      | mk k0 v0 =>
        by_cases h0 : k0 = k
        · subst h0
          simp [setKey, lookupKey, h]
        · simp [setKey, h0, lookupKey, ih]

@[simp]
theorem lookupKey_eraseKey_self {α : Type} (l : List (String × α)) (k : String) :
    lookupKey (eraseKey l k) k = none := by
  induction l with
  | nil => simp [eraseKey, lookupKey]
  | cons kv rest ih =>
      cases kv with
      | mk k0 v0 =>
        by_cases h0 : k0 = k
        · subst h0
          simpa [eraseKey, lookupKey] using ih
        · simpa [eraseKey, lookupKey, h0] using ih

theorem setKey_setKey {α : Type} (l : List (String × α)) (k : String) (v1 v2 : α) :
    setKey (setKey l k v1) k v2 = setKey l k v2 := by
  induction l with
  | nil => simp [setKey]
  | cons kv rest ih =>
      cases kv with
      | mk k0 v0 =>
        by_cases h0 : k0 = k
        · subst h0
          simp [setKey]
        · simp [setKey, h0, ih]

theorem removeFromWaitingQueue_idem (q : List String) (id : String) :
    removeFromWaitingQueue (removeFromWaitingQueue q id) id =
      removeFromWaitingQueue q id := by
  unfold removeFromWaitingQueue
  rw [List.filter_filter]
  congr 1
  funext a
  exact Bool.and_self _

theorem not_mem_removeFromWaitingQueue (q : List String) (id : String) :
    id ∉ removeFromWaitingQueue q id := by
  simp [removeFromWaitingQueue, List.mem_filter]

theorem truthy_some_of_ne (s : String) (h : s ≠ "") : truthy (some s) = true := by
  have h2 : s.isEmpty = false := by
    rw [← Bool.not_eq_true]
    simpa [String.isEmpty_iff] using h
  simp [truthy, h2]

theorem bumpScore_status (m : Match) (w : Option String) :
    (bumpScore m w).status = m.status := by
  unfold bumpScore
  split_ifs <;> rfl

theorem bumpScore_id (m : Match) (w : Option String) :
    (bumpScore m w).id = m.id := by
  unfold bumpScore
  split_ifs <;> rfl

theorem bumpScore_roomId (m : Match) (w : Option String) :
    (bumpScore m w).roomId = m.roomId := by
  unfold bumpScore
  split_ifs <;> rfl

theorem bumpScore_round (m : Match) (w : Option String) :
    (bumpScore m w).round = m.round := by
  unfold bumpScore
  split_ifs <;> rfl

theorem bumpScore_playerA (m : Match) (w : Option String) :
    (bumpScore m w).playerA = m.playerA := by
  unfold bumpScore
  split_ifs <;> rfl

theorem bumpScore_playerB (m : Match) (w : Option String) :
    (bumpScore m w).playerB = m.playerB := by
  unfold bumpScore
  split_ifs <;> rfl

theorem bumpScore_moveA (m : Match) (w : Option String) :
    (bumpScore m w).moveA = m.moveA := by
  unfold bumpScore
  split_ifs <;> rfl

theorem bumpScore_moveB (m : Match) (w : Option String) :
    (bumpScore m w).moveB = m.moveB := by
  unfold bumpScore
  split_ifs <;> rfl

/-- Score bounds of one bumpScore application: neither score decreases, the
two scores together grow by at most one, and each score grows by at most
one. -/
theorem bumpScore_bounds (m : Match) (w : Option String) :
    m.scoreA ≤ (bumpScore m w).scoreA ∧ m.scoreB ≤ (bumpScore m w).scoreB ∧
    (bumpScore m w).scoreA ≤ m.scoreA + 1 ∧ (bumpScore m w).scoreB ≤ m.scoreB + 1 ∧
    (bumpScore m w).scoreA + (bumpScore m w).scoreB ≤ m.scoreA + m.scoreB + 1 := by
  unfold bumpScore
  split_ifs <;> simp <;> omega

/-- Running endMatch on a state whose table holds the active match under
the given id deletes that match from the table and emits game_end (with
the match's scores at that point) as the first of its notifications. -/
theorem endMatch_active_run (now : Nat) (st : ServerState) (matchId : String)
    (m : Match) (w : Option String)
    (hm : lookupKey st.matchTable matchId = some m)
    (hact : m.status = MatchStatus.active) :
    lookupKey (endMatch now st matchId w).1.matchTable matchId = none ∧
    (endMatch now st matchId w).2.head? =
      some (Event.gameEnd m.roomId m.id w m.scoreA m.scoreB now) ∧
    Event.gameEnd m.roomId m.id w m.scoreA m.scoreB now ∈ (endMatch now st matchId w).2 := by
  have hstat : ¬ m.status = MatchStatus.finished := by
    rw [hact]
    simp
  refine ⟨?_, ?_, ?_⟩ <;>
    simp [endMatch, hm, hstat, lookupKey_eraseKey_self]

theorem setMove_status (m : Match) (pid : String) (mv : Move) :
    (setMove m pid mv).status = m.status := by
  unfold setMove
  split_ifs <;> rfl

theorem setMove_roomId (m : Match) (pid : String) (mv : Move) :
    (setMove m pid mv).roomId = m.roomId := by
  unfold setMove
  split_ifs <;> rfl

theorem setMove_id (m : Match) (pid : String) (mv : Move) :
    (setMove m pid mv).id = m.id := by
  unfold setMove
  split_ifs <;> rfl

theorem setMove_round (m : Match) (pid : String) (mv : Move) :
    (setMove m pid mv).round = m.round := by
  unfold setMove
  split_ifs <;> rfl

theorem setMove_playerA (m : Match) (pid : String) (mv : Move) :
    (setMove m pid mv).playerA = m.playerA := by
  unfold setMove
  split_ifs <;> rfl

theorem setMove_playerB (m : Match) (pid : String) (mv : Move) :
    (setMove m pid mv).playerB = m.playerB := by
  unfold setMove
  split_ifs <;> rfl

theorem setMove_turnDeadline (m : Match) (pid : String) (mv : Move) :
    (setMove m pid mv).turnDeadline = m.turnDeadline := by
  unfold setMove
  split_ifs <;> rfl

/-- Recording a move twice for the same sender keeps only the later one. -/
theorem setMove_setMove (m : Match) (pid : String) (mv1 mv2 : Move) :
    setMove (setMove m pid mv1) pid mv2 = setMove m pid mv2 := by
  by_cases h1 : pid = m.playerA
  · simp [setMove, h1]
  · by_cases h2 : pid = m.playerB
    · have h1b : ¬ m.playerB = m.playerA := by
        rw [← h2]
        exact h1
      simp [setMove, h1, h2, h1b]
    · simp [setMove, h1, h2]

/-- An accepted playerMove that does not complete the pair of moves: the
only change is the recorded move slot, and nothing is emitted. -/
theorem playerMove_accepted (now : Nat) (st : ServerState) (sender matchId : String)
    (p : Player) (m : Match) (mv : Move)
    (hp : lookupKey st.players sender = some p)
    (hm : lookupKey st.matchTable matchId = some m)
    (hact : m.status = MatchStatus.active)
    (hmem : sender = m.playerA ∨ sender = m.playerB)
    (hdl : now ≤ m.turnDeadline)
    (hnb : ¬((setMove m sender mv).moveA.isSome ∧ (setMove m sender mv).moveB.isSome)) :
    playerMove now st sender matchId (some mv) =
      ({ st with matchTable := setKey st.matchTable matchId (setMove m sender mv) },
       []) := by
  have hdl2 : ¬ m.turnDeadline < now := by omega
  simp [playerMove, hp, hm, hact, hmem, hdl2, hnb]

/-- Whatever branch resolveRound takes on an active match, the first
notification it emits is the round_result for the current round, carrying
the computed winner, the post-bump scores, and the revealed moves. -/
theorem resolveRound_head (now : Nat) (st : ServerState) (matchId : String)
    (m : Match) (reason : Reason) (leaverId : Option String)
    (hm : lookupKey st.matchTable matchId = some m)
    (hact : m.status = MatchStatus.active) :
    (resolveRound now st matchId reason leaverId).2.head? =
      some (Event.roundResult m.roomId m.id m.round
        (roundWinner st m reason leaverId) reason
        (bumpScore m (roundWinner st m reason leaverId)).scoreA
        (bumpScore m (roundWinner st m reason leaverId)).scoreB
        m.moveA m.moveB now) := by
  simp only [resolveRound, hm, hact, ne_eq, not_true_eq_false, if_false,
    ite_false, reduceIte]
  split <;>
    simp [bumpScore_roomId, bumpScore_id, bumpScore_round, bumpScore_moveA,
      bumpScore_moveB]

/-- The pairing loop always drains the queue to fewer than two entries. -/
theorem tryStartMatchesGo_queue_len (now : Nat) :
    ∀ (q : List String) (st : ServerState),
      (tryStartMatchesGo now q st).1.waitingQueue.length < 2
  | [], _ => by simp [tryStartMatchesGo]
  | [_], _ => by simp [tryStartMatchesGo]
  | a :: b :: rest, st => by
      rw [tryStartMatchesGo]
      by_cases h : pairEligible (lookupKey st.players a) (lookupKey st.players b)
      · simpa [h] using tryStartMatchesGo_queue_len now rest
          (createMatch now { st with waitingQueue := rest } a b).1
      · simpa [h] using tryStartMatchesGo_queue_len now rest
          { st with waitingQueue := rest }

/-- Whatever the pairing loop leaves in the queue was already in the queue
it started from: shifted entries are dropped, never requeued. -/
theorem tryStartMatchesGo_queue_subset (now : Nat) :
    ∀ (q : List String) (st : ServerState) (x : String),
      x ∈ (tryStartMatchesGo now q st).1.waitingQueue → x ∈ q
  | [], _, _ => by simp [tryStartMatchesGo]
  | [a], _, x => by simp [tryStartMatchesGo]
  | a :: b :: rest, st, x => by
      rw [tryStartMatchesGo]
      by_cases h : pairEligible (lookupKey st.players a) (lookupKey st.players b)
      · intro hx
        simp only [h, if_true, reduceIte] at hx
        have := tryStartMatchesGo_queue_subset now rest
          (createMatch now { st with waitingQueue := rest } a b).1 x hx
        simp [this]
      · intro hx
        simp only [h, if_false, reduceIte] at hx
        have := tryStartMatchesGo_queue_subset now rest
          { st with waitingQueue := rest } x hx
        simp [this]

/-
Claim theorems.
-/

/-- C4: for every round resolved with reason moves the winner follows the
rock/paper/scissors precedence (rock beats scissors, scissors beats paper,
paper beats rock) — stated both for the pure rpsWinner function and for
the winner id that resolveRound derives from it — and for every pair of
equal moves the round has no winner (the emitted round_result carries
winnerId = null) and neither score changes. -/
theorem c4_moves_precedence_and_ties
    (now : Nat) (st : ServerState) (matchId : String) (m : Match)
    (hm : lookupKey st.matchTable matchId = some m)
    (hact : m.status = MatchStatus.active)
    (mv : Move) (hA : m.moveA = some mv) (hB : m.moveB = some mv)
    (hsA : m.scoreA < WINS_TO_TAKE_MATCH) (hsB : m.scoreB < WINS_TO_TAKE_MATCH) :
    (∀ x y : Move, rpsWinner (some x) (some y) =
        (if x = y then RpsResult.tie
         else if beats x y then RpsResult.A else RpsResult.B)) ∧
    (∀ x y : Move,
        roundWinner st { m with moveA := some x, moveB := some y }
          Reason.moves none =
        (if x = y then none
         else if beats x y then some m.playerA else some m.playerB)) ∧
    ((resolveRound now st matchId Reason.moves none).2.head? =
        some (Event.roundResult m.roomId m.id m.round none Reason.moves
          m.scoreA m.scoreB (some mv) (some mv) now)) ∧
    (∃ m2, lookupKey (resolveRound now st matchId Reason.moves none).1.matchTable
          matchId = some m2 ∧
        m2.scoreA = m.scoreA ∧ m2.scoreB = m.scoreB ∧
        m2.status = MatchStatus.active) := by
  have hw : roundWinner st m Reason.moves none = none := by
    simp [roundWinner, rpsWinner, hA, hB]
  have hb : bumpScore m none = m := by
    simp [bumpScore, truthy]
  have hmax2 : ¬ WINS_TO_TAKE_MATCH ≤ max m.scoreA m.scoreB := by
    have h1 := Nat.max_lt.mpr ⟨hsA, hsB⟩
    omega
  have hcomp : resolveRound now st matchId Reason.moves none =
      ({ st with
          matchTable := setKey st.matchTable matchId (nextRound now m),
          totalRoundsPlayed := st.totalRoundsPlayed + 1 },
       [Event.roundResult m.roomId m.id m.round none Reason.moves
          m.scoreA m.scoreB (some mv) (some mv) now,
        emitTurnUpdate now (nextRound now m)]) := by
    simp only [resolveRound, hm, hact]
    simp only [hw, hb]
    simp [hmax2, setKey_setKey, hA, hB]
  refine ⟨?_, ?_, ?_, ?_⟩
  · intro x y
    cases x <;> cases y <;> rfl
  · intro x y
    cases x <;> cases y <;> simp [roundWinner, rpsWinner, beats]
  · rw [hcomp]
    rfl
  · rw [hcomp]
    exact ⟨_, lookupKey_setKey_self _ _ _, rfl, rfl, hact⟩

/-- C1 counterexample: there is no per-participant best-of setting anywhere
in the data model, and the threshold is not 2: in stLead player "a" has
1 win and wins the next round, reaching score 2 — yet the match stays in
the live table, still active, so reaching 2 is not what ends a match
created from two default participants. -/
theorem c1_counterexample :
    WINS_TO_TAKE_MATCH ≠ 2 ∧
    (lookupKey (resolveRound 6 stLead "m1" Reason.moves none).1.matchTable
        "m1").map (fun m2 => (m2.scoreA, m2.scoreB, m2.status)) =
      some (2, 0, MatchStatus.active) := by
  exact ⟨by decide, by decide⟩

/-- C1 amended: the wins-required threshold is the fixed constant
WINS_TO_TAKE_MATCH = 3, the same for every match (no participant best-of
preference exists in the data model), and a resolution ends the match —
removes it from the live table — exactly when the larger post-resolution
score has reached 3, or the reason was disconnect/forfeit. -/
theorem c1_fixed_threshold
    (now : Nat) (st : ServerState) (matchId : String) (m : Match)
    (reason : Reason) (leaverId : Option String)
    (hm : lookupKey st.matchTable matchId = some m)
    (hact : m.status = MatchStatus.active) :
    WINS_TO_TAKE_MATCH = 3 ∧
    (lookupKey (resolveRound now st matchId reason leaverId).1.matchTable
        matchId = none ↔
      (WINS_TO_TAKE_MATCH ≤
          max (bumpScore m (roundWinner st m reason leaverId)).scoreA
            (bumpScore m (roundWinner st m reason leaverId)).scoreB ∨
        reason = Reason.disconnect ∨ reason = Reason.forfeit)) := by
  refine ⟨rfl, ?_⟩
  by_cases hc : (WINS_TO_TAKE_MATCH ≤
      max (bumpScore m (roundWinner st m reason leaverId)).scoreA
        (bumpScore m (roundWinner st m reason leaverId)).scoreB ∨
      reason = Reason.disconnect ∨ reason = Reason.forfeit)
  · have hc2 : ((WINS_TO_TAKE_MATCH ≤
        (bumpScore m (roundWinner st m reason leaverId)).scoreA ∨
        WINS_TO_TAKE_MATCH ≤
        (bumpScore m (roundWinner st m reason leaverId)).scoreB) ∨
        reason = Reason.disconnect ∨ reason = Reason.forfeit) := by
      rwa [le_max_iff] at hc
    have hm1 : lookupKey
        (setKey st.matchTable matchId
          (bumpScore m (roundWinner st m reason leaverId))) matchId =
        some (bumpScore m (roundWinner st m reason leaverId)) :=
      lookupKey_setKey_self _ _ _
    have hact1 : (bumpScore m (roundWinner st m reason leaverId)).status =
        MatchStatus.active := by
      rw [bumpScore_status]
      exact hact
    have hend := endMatch_active_run now
      { st with
          matchTable := setKey st.matchTable matchId
            (bumpScore m (roundWinner st m reason leaverId)),
          totalRoundsPlayed := st.totalRoundsPlayed + 1 }
      matchId (bumpScore m (roundWinner st m reason leaverId))
      (roundWinner st m reason leaverId) hm1 hact1
    have hrun1 : (resolveRound now st matchId reason leaverId).1 =
        (endMatch now
          { st with
              matchTable := setKey st.matchTable matchId
                (bumpScore m (roundWinner st m reason leaverId)),
              totalRoundsPlayed := st.totalRoundsPlayed + 1 }
          matchId (roundWinner st m reason leaverId)).1 := by
      simp only [resolveRound, hm, hact]
      simp [hc2]
    refine ⟨fun _ => hc, fun _ => ?_⟩
    rw [hrun1]
    exact hend.1
  · push_neg at hc
    obtain ⟨hmx, hd, hf⟩ := hc
    have hle1 := le_max_left (bumpScore m (roundWinner st m reason leaverId)).scoreA
      (bumpScore m (roundWinner st m reason leaverId)).scoreB
    have hle2 := le_max_right (bumpScore m (roundWinner st m reason leaverId)).scoreA
      (bumpScore m (roundWinner st m reason leaverId)).scoreB
    have hna : ¬ WINS_TO_TAKE_MATCH ≤
        (bumpScore m (roundWinner st m reason leaverId)).scoreA := by omega
    have hnb : ¬ WINS_TO_TAKE_MATCH ≤
        (bumpScore m (roundWinner st m reason leaverId)).scoreB := by omega
    have hrun2 : (resolveRound now st matchId reason leaverId).1.matchTable =
        setKey st.matchTable matchId
          (nextRound now (bumpScore m (roundWinner st m reason leaverId))) := by
      simp only [resolveRound, hm, hact]
      simp [hna, hnb, hd, hf, setKey_setKey]
    constructor
    · intro hl
      rw [hrun2, lookupKey_setKey_self] at hl
      exact absurd hl (by simp)
    · intro hr
      exact absurd hr (by
        rintro (h | h | h)
        · omega
        · exact hd h
        · exact hf h)

/-- C1 witness: the constant threshold is 3, and in stFinal (score 2-0 with
a winning pair of moves for "a") the resolution that takes "a" to 3 ends
the match on that same call. -/
theorem c1_witness :
    WINS_TO_TAKE_MATCH = 3 ∧
    lookupKey (resolveRound 9 stFinal "m1" Reason.moves none).1.matchTable
      "m1" = none :=
  ⟨(c1_fixed_threshold 9 stFinal "m1" finalMatch Reason.moves none (by decide)
      (by decide)).1,
   (c1_fixed_threshold 9 stFinal "m1" finalMatch Reason.moves none (by decide)
      (by decide)).2.mpr (by decide)⟩

/-- C2: for every active match, a resolution with reason disconnect or
forfeit awards the round to the non-leaving player (they are named winner
in the emitted round_result and their score is incremented) and ends the
match on that same call, for every score configuration including 0-0: the
match is deleted from the live table and game_end is emitted naming the
non-leaver, with no wins-required threshold check involved. -/
theorem c2_disconnect_forfeit_ends_match
    (now : Nat) (st : ServerState) (matchId : String) (m : Match)
    (reason : Reason) (leaver : String)
    (hm : lookupKey st.matchTable matchId = some m)
    (hact : m.status = MatchStatus.active)
    (hr : reason = Reason.disconnect ∨ reason = Reason.forfeit)
    (hl : leaver = m.playerA ∨ leaver = m.playerB)
    (hA : m.playerA ≠ "") (hB : m.playerB ≠ "")
    (hAB : m.playerA ≠ m.playerB) :
    roundWinner st m reason (some leaver) =
      some (if leaver = m.playerA then m.playerB else m.playerA) ∧
    (if leaver = m.playerA
      then (bumpScore m (roundWinner st m reason (some leaver))).scoreB = m.scoreB + 1
      else (bumpScore m (roundWinner st m reason (some leaver))).scoreA = m.scoreA + 1) ∧
    lookupKey (resolveRound now st matchId reason (some leaver)).1.matchTable
      matchId = none ∧
    (resolveRound now st matchId reason (some leaver)).2.head? =
      some (Event.roundResult m.roomId m.id m.round
        (some (if leaver = m.playerA then m.playerB else m.playerA)) reason
        (bumpScore m (roundWinner st m reason (some leaver))).scoreA
        (bumpScore m (roundWinner st m reason (some leaver))).scoreB
        m.moveA m.moveB now) ∧
    Event.gameEnd m.roomId m.id
        (some (if leaver = m.playerA then m.playerB else m.playerA))
        (bumpScore m (roundWinner st m reason (some leaver))).scoreA
        (bumpScore m (roundWinner st m reason (some leaver))).scoreB now
      ∈ (resolveRound now st matchId reason (some leaver)).2 := by
  have htl : truthy (some leaver) = true := by
    rcases hl with h | h
    · rw [h]
      exact truthy_some_of_ne _ hA
    · rw [h]
      exact truthy_some_of_ne _ hB
  have hcond : truthy (some leaver) = true ∧
      (some leaver = some m.playerA ∨ some leaver = some m.playerB) := by
    refine ⟨htl, ?_⟩
    rcases hl with h | h <;> simp [h]
  have hw : roundWinner st m reason (some leaver) =
      some (if leaver = m.playerA then m.playerB else m.playerA) := by
    rcases hr with h | h <;> subst h <;>
    · simp only [roundWinner, if_pos hcond]
      rcases hl with h2 | h2 <;> subst h2 <;> simp [hAB, Ne.symm hAB]
  have hbump : (if leaver = m.playerA
      then (bumpScore m (roundWinner st m reason (some leaver))).scoreB = m.scoreB + 1
      else (bumpScore m (roundWinner st m reason (some leaver))).scoreA
        = m.scoreA + 1) := by
    rw [hw]
    rcases hl with h2 | h2 <;> subst h2
    · simp only [if_pos rfl]
      simp [bumpScore, truthy_some_of_ne _ hB, Ne.symm hAB]
    · by_cases hba : m.playerB = m.playerA
      · exact absurd hba.symm hAB
      · simp only [if_neg hba]
        simp [bumpScore, truthy_some_of_ne _ hA]
  have hm1 : lookupKey
      (setKey st.matchTable matchId
        (bumpScore m (some (if leaver = m.playerA then m.playerB else m.playerA))))
      matchId =
      some (bumpScore m (some (if leaver = m.playerA then m.playerB else m.playerA))) :=
    lookupKey_setKey_self _ _ _
  have hact1 : (bumpScore m
      (some (if leaver = m.playerA then m.playerB else m.playerA))).status =
      MatchStatus.active := by
    rw [bumpScore_status]
    exact hact
  have hcomp : resolveRound now st matchId reason (some leaver) =
      ((endMatch now
          { st with
            matchTable := setKey st.matchTable matchId
              (bumpScore m (some (if leaver = m.playerA then m.playerB else m.playerA))),
            totalRoundsPlayed := st.totalRoundsPlayed + 1 }
          matchId
          (some (if leaver = m.playerA then m.playerB else m.playerA))).1,
        Event.roundResult m.roomId m.id m.round
          (some (if leaver = m.playerA then m.playerB else m.playerA)) reason
          (bumpScore m (some (if leaver = m.playerA then m.playerB else m.playerA))).scoreA
          (bumpScore m (some (if leaver = m.playerA then m.playerB else m.playerA))).scoreB
          m.moveA m.moveB now ::
        (endMatch now
          { st with
            matchTable := setKey st.matchTable matchId
              (bumpScore m (some (if leaver = m.playerA then m.playerB else m.playerA))),
            totalRoundsPlayed := st.totalRoundsPlayed + 1 }
          matchId
          (some (if leaver = m.playerA then m.playerB else m.playerA))).2) := by
    rcases hr with h | h <;> subst h <;>
      simp [resolveRound, hm, hact, hw, bumpScore_roomId, bumpScore_id,
        bumpScore_round, bumpScore_moveA, bumpScore_moveB]
  have hend := endMatch_active_run now
    { st with
      matchTable := setKey st.matchTable matchId
        (bumpScore m (some (if leaver = m.playerA then m.playerB else m.playerA))),
      totalRoundsPlayed := st.totalRoundsPlayed + 1 }
    matchId
    (bumpScore m (some (if leaver = m.playerA then m.playerB else m.playerA)))
    (some (if leaver = m.playerA then m.playerB else m.playerA)) hm1 hact1
  refine ⟨hw, hbump, ?_, ?_, ?_⟩
  · rw [hcomp]
    exact hend.1
  · rw [hcomp]
    simp [hw]
  · rw [hcomp, hw]
    refine List.mem_cons_of_mem _ ?_
    have h3 := hend.2.2
    rwa [bumpScore_roomId, bumpScore_id] at h3

/-- C2 witness: in the concrete fresh-match state stMatch at score 0-0, a
forfeit by "b" at time 7 removes m1 from the table immediately. -/
theorem c2_witness :
    lookupKey (resolveRound 7 stMatch "m1" Reason.forfeit (some "b")).1.matchTable
      "m1" = none :=
  (c2_disconnect_forfeit_ends_match 7 stMatch "m1" simpleMatch Reason.forfeit "b"
    (by decide) (by decide) (Or.inr rfl) (Or.inr (by decide)) (by decide)
    (by decide) (by decide)).2.2.1

/-- C3: for an active match whose round deadline has passed when the sweep
body runs: if neither player has a recorded move, no resolution occurs —
the output is exactly a re-emitted turn notification with the same round
and a deadline pushed a full round duration forward, and the stored match
changes only in its deadline (so no round_result is ever emitted for a
round in which nobody moved); if exactly one player has a recorded move,
the round resolves with reason timeout and the sole submitter is the round
winner, their score incremented in the emitted round_result. -/
theorem c3_deadline_sweep
    (now : Nat) (st : ServerState) (matchId : String) (m : Match)
    (hm : lookupKey st.matchTable matchId = some m)
    (hact : m.status = MatchStatus.active)
    (hd : m.turnDeadline ≤ now)
    (hA : m.playerA ≠ "") (hB : m.playerB ≠ "")
    (hAB : m.playerA ≠ m.playerB) :
    ((m.moveA = none ∧ m.moveB = none) →
      deadlineSweepMatch now st matchId =
        ({ st with
            matchTable := setKey st.matchTable matchId
              ({ m with turnDeadline := now + ROUND_TIME_LIMIT }) },
         [Event.turnUpdate m.roomId m.id m.currentTurn (now + ROUND_TIME_LIMIT)
            ROUND_TIME_LIMIT m.round now])) ∧
    (∀ mv, m.moveA = some mv → m.moveB = none →
      (deadlineSweepMatch now st matchId).2.head? =
        some (Event.roundResult m.roomId m.id m.round (some m.playerA)
          Reason.timeout (m.scoreA + 1) m.scoreB (some mv) none now)) ∧
    (∀ mv, m.moveA = none → m.moveB = some mv →
      (deadlineSweepMatch now st matchId).2.head? =
        some (Event.roundResult m.roomId m.id m.round (some m.playerB)
          Reason.timeout m.scoreA (m.scoreB + 1) none (some mv) now)) := by
  have hnd : ¬ now < m.turnDeadline := by omega
  refine ⟨?_, ?_, ?_⟩
  · rintro ⟨ha, hb⟩
    simp [deadlineSweepMatch, hm, hact, hnd, ha, hb, emitTurnUpdate]
  · intro mv ha hb
    have hsw : deadlineSweepMatch now st matchId =
        resolveRound now st matchId Reason.timeout none := by
      simp [deadlineSweepMatch, hm, hact, hnd, ha, hb]
    have hw : roundWinner st m Reason.timeout none = some m.playerA := by
      simp [roundWinner, ha, hb]
    have hbump : bumpScore m (some m.playerA) =
        { m with scoreA := m.scoreA + 1 } := by
      simp [bumpScore, truthy_some_of_ne _ hA]
    rw [hsw, resolveRound_head now st matchId m Reason.timeout none hm hact, hw,
      hbump, ha, hb]
  · intro mv ha hb
    have hsw : deadlineSweepMatch now st matchId =
        resolveRound now st matchId Reason.timeout none := by
      simp [deadlineSweepMatch, hm, hact, hnd, ha, hb]
    have hw : roundWinner st m Reason.timeout none = some m.playerB := by
      simp [roundWinner, ha, hb]
    have hbump : bumpScore m (some m.playerB) =
        { m with scoreB := m.scoreB + 1 } := by
      simp [bumpScore, truthy_some_of_ne _ hB, Ne.symm hAB]
    rw [hsw, resolveRound_head now st matchId m Reason.timeout none hm hact, hw,
      hbump, ha, hb]

/-- C3 witness: in the concrete fresh-match state stMatch with no moves
recorded and the deadline just reached, the sweep only re-emits the turn
notification for the same round 1 with the deadline pushed to 60000. -/
theorem c3_witness :
    deadlineSweepMatch 30000 stMatch "m1" =
      ({ stMatch with
          matchTable := setKey stMatch.matchTable "m1"
            ({ simpleMatch with turnDeadline := 60000 }) },
       [Event.turnUpdate "match:m1" "m1" "a" 60000 30000 1 30000]) :=
  (c3_deadline_sweep 30000 stMatch "m1" simpleMatch (by decide) (by decide)
    (by decide) (by decide) (by decide) (by decide)).1 ⟨rfl, rfl⟩

/-- C5: an inbound playerMove intention is a silent no-op — state unchanged
and no notification — unless the referenced match exists and is active,
the sender is one of its two players, the move is a valid symbol, and the
time has not passed the round deadline; when those hold for a registered
sender, the move is recorded (only the match's move slot changes, with no
notification, when the opponent has not moved), and if both players then
have a recorded move the round resolves in the very same call, its
round_result emitted synchronously. -/
theorem c5_playerMove_validation
    (now : Nat) (st : ServerState) (sender matchId : String) (move : Option Move) :
    ((¬ ∃ m, lookupKey st.matchTable matchId = some m ∧
        m.status = MatchStatus.active ∧
        (sender = m.playerA ∨ sender = m.playerB) ∧
        move ≠ none ∧ now ≤ m.turnDeadline) →
      playerMove now st sender matchId move = (st, [])) ∧
    (∀ p m mv, lookupKey st.players sender = some p →
      lookupKey st.matchTable matchId = some m →
      m.status = MatchStatus.active →
      (sender = m.playerA ∨ sender = m.playerB) →
      move = some mv → now ≤ m.turnDeadline →
      (¬((setMove m sender mv).moveA.isSome ∧ (setMove m sender mv).moveB.isSome) →
        playerMove now st sender matchId move =
          ({ st with
              matchTable := setKey st.matchTable matchId (setMove m sender mv) },
           [])) ∧
      (((setMove m sender mv).moveA.isSome ∧ (setMove m sender mv).moveB.isSome) →
        ∃ w sa sb, (playerMove now st sender matchId move).2.head? =
          some (Event.roundResult m.roomId m.id m.round w Reason.moves sa sb
            (setMove m sender mv).moveA (setMove m sender mv).moveB now))) := by
  constructor
  · intro hnc
    rcases hmm : lookupKey st.matchTable matchId with _ | m
    · cases hp : lookupKey st.players sender <;> simp [playerMove, hp, hmm]
    · by_cases hs : m.status = MatchStatus.active
      · by_cases hmem : sender = m.playerA ∨ sender = m.playerB
        · rcases move with _ | mv
          · cases hp : lookupKey st.players sender <;>
              simp [playerMove, hp, hmm, hs, hmem]
          · by_cases hdl : now ≤ m.turnDeadline
            · exact absurd ⟨m, hmm, hs, hmem, by simp, hdl⟩ hnc
            · have hdl2 : m.turnDeadline < now := by omega
              cases hp : lookupKey st.players sender <;>
                simp [playerMove, hp, hmm, hs, hmem, hdl2]
        · cases hp : lookupKey st.players sender <;>
            simp [playerMove, hp, hmm, hs, hmem]
      · cases hp : lookupKey st.players sender <;> simp [playerMove, hp, hmm, hs]
  · intro p m mv hp hmm hs hmem hmv hdl
    subst hmv
    have hdl2 : ¬ m.turnDeadline < now := by omega
    constructor
    · intro hboth
      simp [playerMove, hp, hmm, hs, hmem, hdl2, hboth]
    · intro hboth
      have hrun : playerMove now st sender matchId (some mv) =
          resolveRound now
            { st with
                matchTable := setKey st.matchTable matchId (setMove m sender mv) }
            matchId Reason.moves none := by
        simp [playerMove, hp, hmm, hs, hmem, hdl2, hboth]
      have hm1 : lookupKey
          (setKey st.matchTable matchId (setMove m sender mv)) matchId =
          some (setMove m sender mv) := lookupKey_setKey_self _ _ _
      have hact1 : (setMove m sender mv).status = MatchStatus.active := by
        rw [setMove_status]
        exact hs
      have hhead := resolveRound_head now
        { st with
            matchTable := setKey st.matchTable matchId (setMove m sender mv) }
        matchId (setMove m sender mv) Reason.moves none hm1 hact1
      rw [setMove_roomId, setMove_id, setMove_round] at hhead
      exact ⟨_, _, _, by rw [hrun]; exact hhead⟩

/-- C5 witness: in the fresh-match state stMatch, "a" submitting rock before
the deadline records the move and produces no notification (the opponent
has not moved yet). -/
theorem c5_witness :
    playerMove 5 stMatch "a" "m1" (some Move.rock) =
      ({ stMatch with
          matchTable := setKey stMatch.matchTable "m1"
            (setMove simpleMatch "a" Move.rock) },
       []) :=
  ((c5_playerMove_validation 5 stMatch "a" "m1" (some Move.rock)).2
    (matchPlayer "a") simpleMatch Move.rock (by decide) (by decide) (by decide)
    (Or.inl rfl) rfl (by decide)).1 (by decide)

/-- C6 counterexample: the registered participant "c" is not a player of
the active match m1, yet their chatMessage is delivered to the match's
room — the handler never checks that the sender is one of the two
players, so the claim's "delivered only if the sender is a current player"
is false on the code. -/
theorem c6_counterexample :
    ("c" ≠ simpleMatch.playerA ∧ "c" ≠ simpleMatch.playerB ∧
      lookupKey stChat.matchTable "m1" = some simpleMatch) ∧
    chatMessage 9 stChat "c" "m1" "hi" =
      (stChat, [Event.chat "match:m1" "m1" "c" "Pc" "hi" 9]) := by
  exact ⟨by decide, by decide⟩

/-- C6 amended: a chatMessage referencing an active match is delivered only
to that match's scoped group (the single emission is addressed to the
match's room) and changes no state, but the delivery condition is only
that the sender is a registered participant and the trimmed text is
nonempty — the sender need not be one of the match's two players. -/
theorem c6_chat_scope
    (now : Nat) (st : ServerState) (sender matchId text : String)
    (p : Player) (m : Match)
    (hp : lookupKey st.players sender = some p)
    (hm : lookupKey st.matchTable matchId = some m)
    (hact : m.status = MatchStatus.active)
    (ht : (jsTrim text).isEmpty = false) :
    chatMessage now st sender matchId text =
      (st, [Event.chat m.roomId m.id sender p.name (jsSlice (jsTrim text) 200) now]) := by
  simp [chatMessage, hp, hm, hact, ht]

/-- C6 witness: player "a" chatting in m1 produces exactly one delivery,
scoped to the match room. -/
theorem c6_witness :
    chatMessage 11 stChat "a" "m1" "gg" =
      (stChat, [Event.chat "match:m1" "m1" "a" "Pa" "gg" 11]) :=
  c6_chat_scope 11 stChat "a" "m1" "gg" (matchPlayer "a") simpleMatch
    (by decide) (by decide) (by decide) (by decide)

/-- C7 counterexample: participant "c" is spectating m1; after joinLobby
rewrites them to a lobby spectator, the spectate association is still in
place (spectatingMatchId is still m1, not cleared), contradicting the
claim that the operation clears any spectate association. -/
theorem c7_counterexample :
    (lookupKey (joinLobby 5 stSpect "c" "Carol" "#abc").1.players "c").map
        Player.spectatingMatchId = some (some "m1") ∧
    some (some "m1") ≠ some (none : Option String) := by
  exact ⟨by decide, by decide⟩

/-- C7 amended: for a registered participant, joinLobby rewrites the
identity fields (name with its fallback and truncation, color with its
fallback), resets them to a lobby-located spectator, clears the
current-match association and the queue membership — but leaves any
spectate association untouched — and is idempotent on the server state:
applying it twice with the same arguments leaves the same state as once. -/
theorem c7_joinLobby_resets
    (now : Nat) (st : ServerState) (sender name preferredColor : String)
    (p : Player)
    (hp : lookupKey st.players sender = some p) :
    lookupKey (joinLobby now st sender name preferredColor).1.players sender =
      some { p with
              name := if name.isEmpty then "Anonymous" else name.take 20,
              preferredColor :=
                if preferredColor.isEmpty then "#ff00ff" else preferredColor,
              role := Role.spectator, roomId := "lobby", matchId := none,
              timeLastHeartbeat := now, wantsMatch := false } ∧
    (lookupKey (joinLobby now st sender name preferredColor).1.players sender).map
        Player.spectatingMatchId = some p.spectatingMatchId ∧
    (joinLobby now st sender name preferredColor).1.waitingQueue =
      removeFromWaitingQueue st.waitingQueue sender ∧
    sender ∉ (joinLobby now st sender name preferredColor).1.waitingQueue ∧
    (joinLobby now (joinLobby now st sender name preferredColor).1 sender name
        preferredColor).1 =
      (joinLobby now st sender name preferredColor).1 := by
  have hrun : joinLobby now st sender name preferredColor =
      ({ st with
          players := setKey st.players sender
            ({ p with
                name := if name.isEmpty then "Anonymous" else name.take 20,
                preferredColor :=
                  if preferredColor.isEmpty then "#ff00ff" else preferredColor,
                role := Role.spectator, roomId := "lobby", matchId := none,
                timeLastHeartbeat := now, wantsMatch := false }),
          waitingQueue := removeFromWaitingQueue st.waitingQueue sender },
       [lobbySnapshot
          { st with
            players := setKey st.players sender
              ({ p with
                  name := if name.isEmpty then "Anonymous" else name.take 20,
                  preferredColor :=
                    if preferredColor.isEmpty then "#ff00ff" else preferredColor,
                  role := Role.spectator, roomId := "lobby", matchId := none,
                  timeLastHeartbeat := now, wantsMatch := false }),
            waitingQueue := removeFromWaitingQueue st.waitingQueue sender } now]) := by
    simp [joinLobby, hp]
  refine ⟨?_, ?_, ?_, ?_, ?_⟩
  · rw [hrun]
    exact lookupKey_setKey_self _ _ _
  · rw [hrun]
    simp [lookupKey_setKey_self]
  · rw [hrun]
  · rw [hrun]
    exact not_mem_removeFromWaitingQueue _ _
  · rw [hrun]
    simp [joinLobby, lookupKey_setKey_self, setKey_setKey,
      removeFromWaitingQueue_idem]

/-- C7 witness: rejoining the lobby twice with the same name and color at
the same instant leaves exactly the state of doing it once. -/
theorem c7_witness :
    (joinLobby 5 (joinLobby 5 stSpect "c" "Carol" "#abc").1 "c" "Carol"
        "#abc").1 =
      (joinLobby 5 stSpect "c" "Carol" "#abc").1 :=
  (c7_joinLobby_resets 5 stSpect "c" "Carol" "#abc" spectatorPlayer
    (by decide)).2.2.2.2

/-- C8: the pairing operation repeatedly removes the two oldest queue
entries; a pair failing the re-validation (both participants exist, still
desire a match, and are still located in the lobby) is skipped without
error, its entries dropped and never requeued; an eligible pair has its
match created and registered; and pairing continues until fewer than two
entries remain in the queue. -/
theorem c8_pairing_revalidation (now : Nat) (st : ServerState) :
    (tryStartMatches now st).1.waitingQueue.length < 2 ∧
    (∀ idA idB rest, st.waitingQueue = idA :: idB :: rest →
      (¬ pairEligible (lookupKey st.players idA) (lookupKey st.players idB) = true →
        tryStartMatches now st =
          tryStartMatchesGo now rest { st with waitingQueue := rest } ∧
        (idA ∉ rest → idA ∉ (tryStartMatches now st).1.waitingQueue) ∧
        (idB ∉ rest → idB ∉ (tryStartMatches now st).1.waitingQueue)) ∧
      (pairEligible (lookupKey st.players idA) (lookupKey st.players idB) = true →
        tryStartMatches now st =
          ((tryStartMatchesGo now rest
              (createMatch now { st with waitingQueue := rest } idA idB).1).1,
           (createMatch now { st with waitingQueue := rest } idA idB).2 ++
             (tryStartMatchesGo now rest
               (createMatch now { st with waitingQueue := rest } idA idB).1).2) ∧
        lookupKey (createMatch now
            { st with waitingQueue := rest } idA idB).1.matchTable
            (mkMatchId idA idB now) =
          some { id := mkMatchId idA idB now, playerA := idA, playerB := idB,
                 scoreA := 0, scoreB := 0, round := 1, currentTurn := idA,
                 turnDeadline := now + ROUND_TIME_LIMIT, moveA := none,
                 moveB := none, status := MatchStatus.active,
                 roomId := "match:" ++ mkMatchId idA idB now })) := by
  refine ⟨tryStartMatchesGo_queue_len now st.waitingQueue st, ?_⟩
  intro idA idB rest hq
  constructor
  · intro h
    have heq : tryStartMatches now st =
        tryStartMatchesGo now rest { st with waitingQueue := rest } := by
      unfold tryStartMatches
      rw [hq, tryStartMatchesGo]
      simp [h]
    refine ⟨heq, ?_, ?_⟩
    · intro hnin hmem
      rw [heq] at hmem
      exact hnin (tryStartMatchesGo_queue_subset now rest _ idA hmem)
    · intro hnin hmem
      rw [heq] at hmem
      exact hnin (tryStartMatchesGo_queue_subset now rest _ idB hmem)
  · intro h
    constructor
    · unfold tryStartMatches
      rw [hq, tryStartMatchesGo]
      simp [h]
    · simp [createMatch, lookupKey_setKey_self, mkMatchId]

/-- C8 witness: two queued, willing lobby players "a" and "b" are paired and
the created match is registered with them as its two players. -/
theorem c8_witness :
    lookupKey (createMatch 0 { stQueue with waitingQueue := ([] : List String) }
        "a" "b").1.matchTable (mkMatchId "a" "b" 0) =
      some { id := mkMatchId "a" "b" 0, playerA := "a", playerB := "b",
             scoreA := 0, scoreB := 0, round := 1, currentTurn := "a",
             turnDeadline := 0 + ROUND_TIME_LIMIT, moveA := none, moveB := none,
             status := MatchStatus.active,
             roomId := "match:" ++ mkMatchId "a" "b" 0 } :=
  (((c8_pairing_revalidation 0 stQueue).2 "a" "b" [] rfl).2 (by decide)).2

/-- C9: for a match with both scores below the wins-required threshold, one
resolution never decreases either score, increases at most one score by
exactly one, and keeps both scores at or below the threshold; if a score
reaches the threshold it is exactly one of the two, and the match
transitions out of the live table (Finished) on that same resolution;
otherwise (and for reasons other than disconnect/forfeit) the match stays
active with exactly the post-resolution scores. -/
theorem c9_score_invariants
    (now : Nat) (st : ServerState) (matchId : String) (m : Match)
    (reason : Reason) (leaverId : Option String)
    (hm : lookupKey st.matchTable matchId = some m)
    (hact : m.status = MatchStatus.active)
    (hsA : m.scoreA < WINS_TO_TAKE_MATCH) (hsB : m.scoreB < WINS_TO_TAKE_MATCH) :
    (m.scoreA ≤ (bumpScore m (roundWinner st m reason leaverId)).scoreA ∧
     m.scoreB ≤ (bumpScore m (roundWinner st m reason leaverId)).scoreB ∧
     (bumpScore m (roundWinner st m reason leaverId)).scoreA +
       (bumpScore m (roundWinner st m reason leaverId)).scoreB ≤
       m.scoreA + m.scoreB + 1 ∧
     (bumpScore m (roundWinner st m reason leaverId)).scoreA ≤ WINS_TO_TAKE_MATCH ∧
     (bumpScore m (roundWinner st m reason leaverId)).scoreB ≤ WINS_TO_TAKE_MATCH) ∧
    ((WINS_TO_TAKE_MATCH ≤ (bumpScore m (roundWinner st m reason leaverId)).scoreA ∨
      WINS_TO_TAKE_MATCH ≤ (bumpScore m (roundWinner st m reason leaverId)).scoreB) →
      lookupKey (resolveRound now st matchId reason leaverId).1.matchTable
        matchId = none ∧
      ¬(WINS_TO_TAKE_MATCH ≤ (bumpScore m (roundWinner st m reason leaverId)).scoreA ∧
        WINS_TO_TAKE_MATCH ≤ (bumpScore m (roundWinner st m reason leaverId)).scoreB)) ∧
    ((bumpScore m (roundWinner st m reason leaverId)).scoreA < WINS_TO_TAKE_MATCH →
     (bumpScore m (roundWinner st m reason leaverId)).scoreB < WINS_TO_TAKE_MATCH →
     reason ≠ Reason.disconnect → reason ≠ Reason.forfeit →
      lookupKey (resolveRound now st matchId reason leaverId).1.matchTable matchId =
        some (nextRound now (bumpScore m (roundWinner st m reason leaverId))) ∧
      (nextRound now (bumpScore m (roundWinner st m reason leaverId))).status =
        MatchStatus.active ∧
      (nextRound now (bumpScore m (roundWinner st m reason leaverId))).scoreA =
        (bumpScore m (roundWinner st m reason leaverId)).scoreA ∧
      (nextRound now (bumpScore m (roundWinner st m reason leaverId))).scoreB =
        (bumpScore m (roundWinner st m reason leaverId)).scoreB) := by
  obtain ⟨b1, b2, b3, b4, b5⟩ := bumpScore_bounds m (roundWinner st m reason leaverId)
  refine ⟨⟨b1, b2, b5, by omega, by omega⟩, ?_, ?_⟩
  · intro hge
    have hmax : WINS_TO_TAKE_MATCH ≤
        max (bumpScore m (roundWinner st m reason leaverId)).scoreA
          (bumpScore m (roundWinner st m reason leaverId)).scoreB := by
      rcases hge with h | h
      · exact le_trans h (le_max_left _ _)
      · exact le_trans h (le_max_right _ _)
    have hm1 : lookupKey
        (setKey st.matchTable matchId
          (bumpScore m (roundWinner st m reason leaverId))) matchId =
        some (bumpScore m (roundWinner st m reason leaverId)) :=
      lookupKey_setKey_self _ _ _
    have hact1 : (bumpScore m (roundWinner st m reason leaverId)).status =
        MatchStatus.active := by
      rw [bumpScore_status]
      exact hact
    have hend := endMatch_active_run now
      { st with
          matchTable := setKey st.matchTable matchId
            (bumpScore m (roundWinner st m reason leaverId)),
          totalRoundsPlayed := st.totalRoundsPlayed + 1 }
      matchId (bumpScore m (roundWinner st m reason leaverId))
      (roundWinner st m reason leaverId) hm1 hact1
    have hrun1 : (resolveRound now st matchId reason leaverId).1 =
        (endMatch now
          { st with
              matchTable := setKey st.matchTable matchId
                (bumpScore m (roundWinner st m reason leaverId)),
              totalRoundsPlayed := st.totalRoundsPlayed + 1 }
          matchId (roundWinner st m reason leaverId)).1 := by
      simp only [resolveRound, hm, hact]
      simp [hmax]
    refine ⟨?_, by omega⟩
    rw [hrun1]
    exact hend.1
  · intro h1 h2 hnd hnf
    have hna : ¬ WINS_TO_TAKE_MATCH ≤
        (bumpScore m (roundWinner st m reason leaverId)).scoreA := by omega
    have hnb : ¬ WINS_TO_TAKE_MATCH ≤
        (bumpScore m (roundWinner st m reason leaverId)).scoreB := by omega
    have hrun2 : (resolveRound now st matchId reason leaverId).1.matchTable =
        setKey st.matchTable matchId
          (nextRound now (bumpScore m (roundWinner st m reason leaverId))) := by
      simp only [resolveRound, hm, hact]
      simp [hna, hnb, hnd, hnf, setKey_setKey]
    refine ⟨?_, ?_, rfl, rfl⟩
    · rw [hrun2]
      exact lookupKey_setKey_self _ _ _
    · have hs : (nextRound now (bumpScore m (roundWinner st m reason
          leaverId))).status =
          (bumpScore m (roundWinner st m reason leaverId)).status := rfl
      rw [hs, bumpScore_status]
      exact hact

/-- C9 witness: in stFinal (m1 at 2-0 with "a" holding a winning pair of
moves), resolving the round takes "a" to the threshold and the match
leaves the live table on that same call. -/
theorem c9_witness :
    lookupKey (resolveRound 8 stFinal "m1" Reason.moves none).1.matchTable
      "m1" = none :=
  ((c9_score_invariants 8 stFinal "m1" finalMatch Reason.moves none (by decide)
    (by decide) (by decide) (by decide)).2.1 (by decide)).1

/-- C10: while the deadline has not passed and the opponent has not yet
recorded a move, a second valid submission from the same player overwrites
the first: the resulting server state is exactly the state that submitting
only the later move would have produced. -/
theorem c10_last_accepted_move_wins
    (now1 now2 : Nat) (st : ServerState) (sender matchId : String)
    (p : Player) (m : Match) (mv1 mv2 : Move)
    (hp : lookupKey st.players sender = some p)
    (hm : lookupKey st.matchTable matchId = some m)
    (hact : m.status = MatchStatus.active)
    (hAB : m.playerA ≠ m.playerB)
    (hmem : sender = m.playerA ∨ sender = m.playerB)
    (hother : (if sender = m.playerA then m.moveB else m.moveA) = none)
    (hd1 : now1 ≤ m.turnDeadline) (hd2 : now2 ≤ m.turnDeadline) :
    (playerMove now2 (playerMove now1 st sender matchId (some mv1)).1 sender
        matchId (some mv2)).1 =
      (playerMove now2 st sender matchId (some mv2)).1 := by
  have hnb : ∀ mv : Move,
      ¬((setMove m sender mv).moveA.isSome ∧ (setMove m sender mv).moveB.isSome) := by
    intro mv
    rcases hmem with h | h
    · have hoB : m.moveB = none := by
        rw [h] at hother
        simpa using hother
      simp [setMove, h, hoB]
    · have hba2 : ¬ m.playerB = m.playerA := fun hcc => hAB hcc.symm
      have hba : ¬ sender = m.playerA := by
        rw [h]
        exact hba2
      have hoA : m.moveA = none := by
        rw [if_neg hba] at hother
        exact hother
      simp [setMove, h, hba2, hoA]
  have h1 := playerMove_accepted now1 st sender matchId p m mv1 hp hm hact hmem
    hd1 (hnb mv1)
  have hm2 : lookupKey
      (setKey st.matchTable matchId (setMove m sender mv1)) matchId =
      some (setMove m sender mv1) := lookupKey_setKey_self _ _ _
  have hact2 : (setMove m sender mv1).status = MatchStatus.active := by
    rw [setMove_status]
    exact hact
  have hmem2 : sender = (setMove m sender mv1).playerA ∨
      sender = (setMove m sender mv1).playerB := by
    rw [setMove_playerA, setMove_playerB]
    exact hmem
  have hd2b : now2 ≤ (setMove m sender mv1).turnDeadline := by
    rw [setMove_turnDeadline]
    exact hd2
  have hnb2 : ¬((setMove (setMove m sender mv1) sender mv2).moveA.isSome ∧
      (setMove (setMove m sender mv1) sender mv2).moveB.isSome) := by
    rw [setMove_setMove]
    exact hnb mv2
  have h2 := playerMove_accepted now2
    { st with matchTable := setKey st.matchTable matchId (setMove m sender mv1) }
    sender matchId p (setMove m sender mv1) mv2 hp hm2 hact2 hmem2 hd2b hnb2
  have h3 := playerMove_accepted now2 st sender matchId p m mv2 hp hm hact hmem
    hd2 (hnb mv2)
  rw [h1, h2, h3]
  simp [setMove_setMove, setKey_setKey]

/-- C10 witness: in stMatch, "a" submitting rock then paper at times 4 and 5
yields exactly the state of submitting only paper at time 5. -/
theorem c10_witness :
    (playerMove 5 (playerMove 4 stMatch "a" "m1" (some Move.rock)).1 "a" "m1"
        (some Move.paper)).1 =
      (playerMove 5 stMatch "a" "m1" (some Move.paper)).1 :=
  c10_last_accepted_move_wins 4 5 stMatch "a" "m1" (matchPlayer "a") simpleMatch
    Move.rock Move.paper (by decide) (by decide) (by decide) (by decide)
    (Or.inl rfl) (by decide) (by decide) (by decide)

/-- C4 witness: in the concrete state stTie (match m1, both moves rock, at
time 5) the resolution emits a round_result with no winner. -/
theorem c4_witness :
    (resolveRound 5 stTie "m1" Reason.moves none).2.head? =
      some (Event.roundResult "match:m1" "m1" 1 none Reason.moves 0 0
        (some Move.rock) (some Move.rock) 5) :=
  (c4_moves_precedence_and_ties 5 stTie "m1" tieMatch (by decide) (by decide)
    Move.rock (by decide) (by decide) (by decide) (by decide)).2.2.1

end RPS
